import Mathlib

/-!
# kubernetes-operator-demo: namespace controller

A shallow embedding of `pkg/controller/controller.go` and `cmd/main.go`.

* Kubernetes API objects are records holding the fields the program reads or
  writes; a field the program leaves out of a struct literal has Go's zero value.
* The effects of the program (API requests, log entries, library calls) are
  recorded in explicit traces.
* What the cluster and the client libraries answer is a parameter of the model.
* The goroutines of the process are interleaved by a list of events.
-/

namespace OperatorDemo

/-! ## Go values -/

/-- A non-nil Go `error`; `msg` is what `Error()` returns. -/
structure GoError where
  msg : String
deriving DecidableEq, Repr

/-- A run-time panic of the Go program. -/
inductive Panic where
  /-- A failed single-value type assertion `x.(T)`. -/
  | typeAssertion
  /-- A field or method reached through a nil pointer. -/
  | nilDereference
  /-- An explicit `panic(msg)`. -/
  | explicit (msg : String)
deriving DecidableEq, Repr

/-- The verb `%s` of `fmt.Sprintf`, scanning the characters of the format; the
flag tells that the character before was an unconsumed percent sign. Each `%s`
is replaced by the next string operand, `%%` is a percent sign, any other
character is copied. Every format of the source is literal text followed by
one `%s` and has one string operand. -/
def sprintfChars : Bool → List Char → List String → List Char
  | false, [], _ => []
  | true, [], _ => "%!(NOVERB)".data
  | false, c :: rest, args =>
    if c = '%' then sprintfChars true rest args
    else c :: sprintfChars false rest args
  | true, c :: rest, args =>
    if c = 's' then
      match args with
      | a :: args' => a.data ++ sprintfChars false rest args'
      | [] => "%!s(MISSING)".data ++ sprintfChars false rest []
    else if c = '%' then '%' :: sprintfChars false rest args
    else '%' :: c :: sprintfChars false rest args

/-- The call `fmt.Sprintf(format, args...)` with string operands. -/
def Sprintf (format : String) (args : List String) : String :=
  String.mk (sprintfChars false format.data args)

/-! ## API objects -/

/-- The type `metav1.TypeMeta`. -/
structure TypeMeta where
  Kind : String := ""
  APIVersion : String := ""
deriving DecidableEq, Repr

/-- The type `metav1.ObjectMeta`. -/
structure ObjectMeta where
  Name : String := ""
  GenerateName : String := ""
  Namespace : String := ""
  UID : String := ""
  ResourceVersion : String := ""
  Labels : List (String × String) := []
  Annotations : List (String × String) := []
deriving DecidableEq, Repr

/-- The type `v1.Namespace`. -/
structure Namespace where
  TypeMeta : TypeMeta := {}
  ObjectMeta : ObjectMeta := {}
  Finalizers : List String := []
  Phase : String := ""
deriving DecidableEq, Repr

/-- The type `rbacv1.Subject`. -/
structure Subject where
  Kind : String := ""
  APIGroup : String := ""
  Name : String := ""
  Namespace : String := ""
deriving DecidableEq, Repr

/-- The type `rbacv1.RoleRef`. -/
structure RoleRef where
  APIGroup : String := ""
  Kind : String := ""
  Name : String := ""
deriving DecidableEq, Repr

/-- The type `rbacv1.RoleBinding`. -/
structure RoleBinding where
  TypeMeta : TypeMeta := {}
  ObjectMeta : ObjectMeta := {}
  Subjects : List Subject := []
  RoleRef : RoleRef := {}
deriving DecidableEq, Repr

/-- A value of type `interface{}` handed to an event callback. -/
inductive Obj where
  /-- A `*v1.Namespace`; `none` is the nil pointer. -/
  | namespace (p : Option Namespace)
  /-- A value of any other dynamic type. -/
  | other (typeName : String)
deriving DecidableEq, Repr

/-! ## Effects -/

/-- The verb of a request to the API server. -/
inductive Verb where
  | create | get | list | watch | update | patch | delete
deriving DecidableEq, Repr

/-- One request sent to the API server. -/
structure ApiCall where
  verb : Verb
  resource : String
  ns : String
  body : Option RoleBinding
deriving DecidableEq, Repr

/-- What the controller has done so far: the requests it sent, in order, and the
messages it handed to `log.Println` or `log.Printf`, in order. -/
structure World where
  calls : List ApiCall := []
  log : List String := []
deriving DecidableEq, Repr

/-- The type `kubernetes.Clientset`: `Create` is the error answered by
`RbacV1().RoleBindings(ns).Create(rb)`, `none` for success; the answer may depend
on the requests sent before. -/
structure Clientset where
  Create : List ApiCall → String → RoleBinding → Option GoError

/-! ## pkg/controller/controller.go -/

/-- The functions of this program of the type `func(obj interface{})`, the type
of an add or delete callback. -/
inductive Callback where
  | createRoleBinding
deriving DecidableEq, Repr

/-- A function of the type `func(oldObj, newObj interface{})`, the type of an
update callback. The program defines none. -/
inductive UpdateCallback : Type where
deriving DecidableEq, Repr

/-- The type `cache.ResourceEventHandlerFuncs`; `none` is a nil function. -/
structure ResourceEventHandlerFuncs where
  AddFunc : Option Callback := none
  UpdateFunc : Option UpdateCallback := none
  DeleteFunc : Option Callback := none
deriving DecidableEq, Repr

/-- The shared index informer built by `cache.NewSharedIndexInformer`: the
resync period in seconds and the registered handlers. -/
structure SharedIndexInformer where
  resyncSeconds : Nat
  handlers : List ResourceEventHandlerFuncs
deriving DecidableEq, Repr

/-- The type `NamespaceController`; `kclient` is a pointer, `none` when nil. -/
structure NamespaceController where
  namespaceInformer : SharedIndexInformer
  kclient : Option Clientset

/-- The method `createRoleBinding` (controller.go:72-105). -/
def createRoleBinding (c : NamespaceController) (obj : Obj) (w : World) :
    Except Panic World :=
  match obj with
  | Obj.other _ => Except.error Panic.typeAssertion
  | Obj.namespace none => Except.error Panic.nilDereference
  | Obj.namespace (some namespaceObj) =>
    let namespaceName := namespaceObj.ObjectMeta.Name
    let roleBinding : RoleBinding :=
      { TypeMeta :=
          { Kind := "RoleBinding"
            APIVersion := "rbac.authorization.k8s.io/v1beta1" }
        ObjectMeta :=
          { Name := Sprintf "ad-kubernetes-%s" [namespaceName]
            Namespace := namespaceName }
        Subjects :=
          [ { Kind := "Group"
              Name := Sprintf "ad-kubernetes-%s" [namespaceName] } ]
        RoleRef :=
          { APIGroup := "rbac.authorization.k8s.io"
            Kind := "ClusterRole"
            Name := "edit" } }
    match c.kclient with
    | none => Except.error Panic.nilDereference
    | some kclient =>
      let err := kclient.Create w.calls namespaceName roleBinding
      let w1 : World :=
        { w with calls := w.calls ++
            [{ verb := Verb.create, resource := "rolebindings",
               ns := namespaceName, body := some roleBinding }] }
      match err with
      | some e =>
        Except.ok { w1 with log := w1.log ++
          [Sprintf "Failed to create Role Binding: %s" [e.msg]] }
      | none =>
        Except.ok { w1 with log := w1.log ++
          [Sprintf "Created AD RoleBinding for Namespace: %s"
            [roleBinding.ObjectMeta.Name]] }

/-- The function `NewNamespaceController` (controller.go:42-70): an informer on
namespaces with a resync period of three minutes and one handler, whose add
callback is `createRoleBinding`. -/
def NewNamespaceController (kclient : Option Clientset) : NamespaceController :=
  let namespaceInformer : SharedIndexInformer :=
    { resyncSeconds := 3 * 60, handlers := [] }
  let namespaceInformer : SharedIndexInformer :=
    { namespaceInformer with handlers := namespaceInformer.handlers ++
        [{ AddFunc := some Callback.createRoleBinding }] }
  { kclient := kclient, namespaceInformer := namespaceInformer }

/-- Calling a registered callback on the controller it is bound to. -/
def callCallback (c : NamespaceController) :
    Callback → Obj → World → Except Panic World
  | Callback.createRoleBinding => createRoleBinding c

/-- Library method `ResourceEventHandlerFuncs.OnAdd` of client-go: the add
callback is called when it is not nil. -/
def OnAdd (h : ResourceEventHandlerFuncs) (c : NamespaceController) (obj : Obj)
    (w : World) : Except Panic World :=
  match h.AddFunc with
  | some f => callCallback c f obj w
  | none => Except.ok w

/-- Library method `ResourceEventHandlerFuncs.OnUpdate` of client-go: the update
callback is called when it is not nil. -/
def OnUpdate (h : ResourceEventHandlerFuncs) (_c : NamespaceController)
    (_oldObj _newObj : Obj) (w : World) : Except Panic World :=
  match h.UpdateFunc with
  | some f => nomatch f
  | none => Except.ok w

/-- Library method `ResourceEventHandlerFuncs.OnDelete` of client-go: the delete
callback is called when it is not nil. -/
def OnDelete (h : ResourceEventHandlerFuncs) (c : NamespaceController) (obj : Obj)
    (w : World) : Except Panic World :=
  match h.DeleteFunc with
  | some f => callCallback c f obj w
  | none => Except.ok w

/-- A notification of the namespace informer. An add notification carries the
namespace read from the cluster; an update notification (a change or a periodic
resync) the old and the new object; a delete notification the last known object
or a tombstone. -/
inductive Notification where
  | added (ns : Namespace)
  | updated (oldObj newObj : Obj)
  | deleted (obj : Obj)
deriving DecidableEq, Repr

/-- One handler receiving one notification. -/
def handle (h : ResourceEventHandlerFuncs) (c : NamespaceController)
    (n : Notification) (w : World) : Except Panic World :=
  match n with
  | Notification.added ns => OnAdd h c (Obj.namespace (some ns)) w
  | Notification.updated oldObj newObj => OnUpdate h c oldObj newObj w
  | Notification.deleted obj => OnDelete h c obj w

/-- The informer distributing one notification to its handlers, in the order
of registration; a panic in a callback ends the distribution. -/
def distribute (c : NamespaceController) (n : Notification) :
    List ResourceEventHandlerFuncs → World → Except Panic World
  | [], w => Except.ok w
  | h :: hs, w =>
    match handle h c n w with
    | Except.ok w1 => distribute c n hs w1
    | Except.error p => Except.error p

/-! ## cmd/main.go -/

/-- The type `rest.Config`, which this program only passes on. -/
structure RestConfig where
  host : String
deriving DecidableEq, Repr

/-- The environment and the libraries `newClientSet` calls. -/
structure Lib where
  Getenv : String → String
  Join : List String → String
  BuildConfigFromFlags : String → String → Option RestConfig × Option GoError
  NewForConfig : Option RestConfig → Option Clientset × Option GoError

/-- One call from `newClientSet` into the environment or a library. -/
inductive LibCall where
  | Getenv (key : String)
  | Join (elem : List String)
  | BuildConfigFromFlags (masterUrl kubeconfigPath : String)
  | NewForConfig (config : Option RestConfig)
deriving DecidableEq, Repr

/-- The function `newClientSet` (main.go:53-70): the pair it returns and the
calls it made, in order. -/
def newClientSet (lib : Lib) (runOutsideCluster : Bool) :
    (Option Clientset × Option GoError) × List LibCall :=
  let kubeConfigLocation := ""
  let located : String × List LibCall :=
    if runOutsideCluster = true then
      let homeDir := lib.Getenv "HOME"
      (lib.Join [homeDir, ".kube", "config"],
        [LibCall.Getenv "HOME", LibCall.Join [homeDir, ".kube", "config"]])
    else (kubeConfigLocation, [])
  let kubeConfigLocation := located.1
  let built := lib.BuildConfigFromFlags "" kubeConfigLocation
  let calls := located.2 ++ [LibCall.BuildConfigFromFlags "" kubeConfigLocation]
  match built.2 with
  | some err => ((none, some err), calls)
  | none => (lib.NewForConfig built.1, calls ++ [LibCall.NewForConfig built.1])

/-- A boolean command-line flag as registered by `flag.Bool`. -/
structure BoolFlag where
  name : String
  value : Bool
  usage : String
deriving DecidableEq, Repr

/-- The flag registered at main.go:34. -/
def runOutsideClusterFlag : BoolFlag :=
  { name := "run-outside-cluster"
    value := false
    usage := "Set this flag when running outside of the cluster." }

/-- The value of a flag after `flag.Parse`: what the command line sets, and the
registered default when the command line does not name the flag. -/
def flagValue (f : BoolFlag) (cmdline : Option Bool) : Bool :=
  cmdline.getD f.value

/-- The signals registered with `signal.Notify` at main.go:28 (`os.Interrupt`
is `SIGINT`). -/
inductive Signal where
  | SIGINT | SIGTERM
deriving DecidableEq, Repr

/-- Where the main goroutine stands. -/
inductive Pc where
  /-- Before main.go:38-44, the call of `newClientSet` and the test of `err`. -/
  | newClientSet
  /-- Before the call of `NewNamespaceController` in main.go:46. -/
  | newController
  /-- Entering `Run` (controller.go:29-35). -/
  | runStart
  /-- At the receive from `stopCh` in `Run` (controller.go:38). -/
  | runWait
  /-- At the receive from `sigs` (main.go:49). -/
  | waitSigs
  /-- Before `log.Printf` at main.go:50. -/
  | logShutdown
  /-- The function `main` has returned. -/
  | returned
  /-- The process was ended by a panic. -/
  | panicked (p : Panic)
deriving DecidableEq, Repr

/-- The state of the process. -/
structure State where
  pc : Pc
  runOutsideCluster : Bool
  /-- The channel `sigs`, of capacity one. -/
  sigs : List Signal
  /-- Whether the channel `stop` is closed; it is unbuffered. -/
  stopClosed : Bool
  /-- The counter of the wait group `wg`. -/
  wg : Int
  clientset : Option Clientset
  controller : Option NamespaceController
  /-- Whether the goroutine `namespaceInformer.Run(stopCh)` was started. -/
  informerStarted : Bool
  libCalls : List LibCall
  world : World

/-- The state when main.go:38 is reached: the channels are made, the signals
are registered and the flags are parsed. -/
def initState (cmdline : Option Bool) : State :=
  { pc := Pc.newClientSet
    runOutsideCluster := flagValue runOutsideClusterFlag cmdline
    sigs := []
    stopClosed := false
    wg := 0
    clientset := none
    controller := none
    informerStarted := false
    libCalls := []
    world := {} }

/-- Whether the process is still running. -/
def State.alive (s : State) : Bool :=
  match s.pc with
  | Pc.returned => false
  | Pc.panicked _ => false
  | _ => true

/-- One step of the main goroutine (main.go:38-51 and, inlined, `Run`,
controller.go:26-39). A receive from a channel with nothing to receive leaves
the state unchanged. No statement of the program sends on `stop` or closes
it. -/
def mainStep (lib : Lib) (s : State) : State :=
  match s.pc with
  | Pc.newClientSet =>
    let r := newClientSet lib s.runOutsideCluster
    match r.1.2 with
    | some err =>
      { s with libCalls := s.libCalls ++ r.2
               pc := Pc.panicked (Panic.explicit err.msg) }
    | none =>
      { s with libCalls := s.libCalls ++ r.2
               clientset := r.1.1
               pc := Pc.newController }
  | Pc.newController =>
    { s with controller := some (NewNamespaceController s.clientset)
             pc := Pc.runStart }
  | Pc.runStart =>
    { s with wg := s.wg + 1, informerStarted := true, pc := Pc.runWait }
  | Pc.runWait =>
    if s.stopClosed then { s with wg := s.wg - 1, pc := Pc.waitSigs } else s
  | Pc.waitSigs =>
    match s.sigs with
    | _ :: rest => { s with sigs := rest, pc := Pc.logShutdown }
    | [] => s
  | Pc.logShutdown =>
    { s with world := { s.world with log := s.world.log ++ ["Shutting down..."] }
             pc := Pc.returned }
  | Pc.returned => s
  | Pc.panicked _ => s

/-- What can happen next in the process. -/
inductive Event where
  /-- The main goroutine takes a step. -/
  | main
  /-- The operating system delivers a registered signal. -/
  | signal (sig : Signal)
  /-- The informer goroutine distributes a notification. -/
  | informer (n : Notification)
deriving DecidableEq, Repr

/-- The delivery of a registered signal: the package `os/signal` sends it on
`sigs` without blocking, so it is dropped when the buffer is full. -/
def deliver (sig : Signal) (s : State) : State :=
  if s.alive ∧ s.sigs.length < 1 then { s with sigs := s.sigs ++ [sig] } else s

/-- The informer goroutine distributing a notification; it runs from the `go`
statement of `Run` until `stop` is closed, and a panic in it ends the
process. -/
def informerStep (n : Notification) (s : State) : State :=
  if s.alive ∧ s.informerStarted = true ∧ s.stopClosed = false then
    match s.controller with
    | none => s
    | some c =>
      match distribute c n c.namespaceInformer.handlers s.world with
      | Except.ok w => { s with world := w }
      | Except.error p => { s with pc := Pc.panicked p }
  else s

/-- One event. -/
def step (lib : Lib) (e : Event) (s : State) : State :=
  match e with
  | Event.main => mainStep lib s
  | Event.signal sig => deliver sig s
  | Event.informer n => informerStep n s

/-- A sequence of events, from left to right. -/
def run (lib : Lib) : List Event → State → State
  | [], s => s
  | e :: es, s => run lib es (step lib e s)

/-! ## Lemmas on formatting -/

theorem sprintf_adKubernetes (n : String) :
    Sprintf "ad-kubernetes-%s" [n] = "ad-kubernetes-" ++ n := by
  apply String.ext
  simp [Sprintf, sprintfChars, String.data_append]

theorem sprintf_failed (m : String) :
    Sprintf "Failed to create Role Binding: %s" [m]
      = "Failed to create Role Binding: " ++ m := by
  apply String.ext
  simp [Sprintf, sprintfChars, String.data_append]

theorem sprintf_created (m : String) :
    Sprintf "Created AD RoleBinding for Namespace: %s" [m]
      = "Created AD RoleBinding for Namespace: " ++ m := by
  apply String.ext
  simp [Sprintf, sprintfChars, String.data_append]

theorem append_ne_of_head {a b : String} {x y : Char} {p q : List Char}
    (ha : a.data = x :: p) (hb : b.data = y :: q) (hxy : x ≠ y) (s t : String) :
    a ++ s ≠ b ++ t := by
  intro h
  have h2 := congrArg String.data h
  simp only [String.data_append, ha, hb, List.cons_append] at h2
  exact hxy (List.cons.inj h2).1

theorem append_left_cancel {a s t : String} (h : a ++ s = a ++ t) : s = t := by
  have h2 := congrArg String.data h
  simp only [String.data_append] at h2
  exact String.ext (List.append_cancel_left h2)

/-! ## createRoleBinding -/

/-- The result of `createRoleBinding` on a namespace object, for a controller
built by `NewNamespaceController` on a non-nil clientset. -/
theorem createRoleBinding_eq (k : Clientset) (ns : Namespace) (w : World) :
    createRoleBinding (NewNamespaceController (some k)) (Obj.namespace (some ns)) w
      = Except.ok
        { calls := w.calls ++
            [{ verb := Verb.create, resource := "rolebindings",
               ns := ns.ObjectMeta.Name,
               body := some
                { TypeMeta :=
                    { Kind := "RoleBinding"
                      APIVersion := "rbac.authorization.k8s.io/v1beta1" }
                  ObjectMeta :=
                    { Name := "ad-kubernetes-" ++ ns.ObjectMeta.Name
                      Namespace := ns.ObjectMeta.Name }
                  Subjects :=
                    [ { Kind := "Group"
                        Name := "ad-kubernetes-" ++ ns.ObjectMeta.Name } ]
                  RoleRef :=
                    { APIGroup := "rbac.authorization.k8s.io"
                      Kind := "ClusterRole"
                      Name := "edit" } } }]
          log := w.log ++
            [match k.Create w.calls ns.ObjectMeta.Name
                { TypeMeta :=
                    { Kind := "RoleBinding"
                      APIVersion := "rbac.authorization.k8s.io/v1beta1" }
                  ObjectMeta :=
                    { Name := "ad-kubernetes-" ++ ns.ObjectMeta.Name
                      Namespace := ns.ObjectMeta.Name }
                  Subjects :=
                    [ { Kind := "Group"
                        Name := "ad-kubernetes-" ++ ns.ObjectMeta.Name } ]
                  RoleRef :=
                    { APIGroup := "rbac.authorization.k8s.io"
                      Kind := "ClusterRole"
                      Name := "edit" } } with
             | some e => "Failed to create Role Binding: " ++ e.msg
             | none => "Created AD RoleBinding for Namespace: "
                 ++ ("ad-kubernetes-" ++ ns.ObjectMeta.Name)] } := by
  simp only [createRoleBinding, NewNamespaceController, sprintf_adKubernetes,
    sprintf_failed, sprintf_created]
  cases k.Create w.calls ns.ObjectMeta.Name _ <;> rfl

/-- C1: for every name `n` there is one role binding, with metadata name
"ad-kubernetes-" followed by `n` and metadata namespace `n`, that every
invocation of `createRoleBinding` on a namespace object named `n` submits,
whatever the other fields of the object, the clientset and the history. -/
theorem createRoleBinding_metadata (n : String) :
    ∃ rb : RoleBinding,
      rb.ObjectMeta.Name = "ad-kubernetes-" ++ n ∧ rb.ObjectMeta.Namespace = n ∧
      ∀ (k : Clientset) (tm : TypeMeta) (om : ObjectMeta) (fin : List String)
        (phase : String) (w : World),
        ∃ w1 : World,
          createRoleBinding (NewNamespaceController (some k))
            (Obj.namespace (some
              { TypeMeta := tm, ObjectMeta := { om with Name := n },
                Finalizers := fin, Phase := phase })) w = Except.ok w1 ∧
          w1.calls = w.calls ++
            [{ verb := Verb.create, resource := "rolebindings", ns := n,
               body := some rb }] := by
  refine ⟨{ TypeMeta :=
              { Kind := "RoleBinding"
                APIVersion := "rbac.authorization.k8s.io/v1beta1" }
            ObjectMeta := { Name := "ad-kubernetes-" ++ n, Namespace := n }
            Subjects := [{ Kind := "Group", Name := "ad-kubernetes-" ++ n }]
            RoleRef :=
              { APIGroup := "rbac.authorization.k8s.io", Kind := "ClusterRole",
                Name := "edit" } }, rfl, rfl, ?_⟩
  intro k tm om fin phase w
  exact ⟨_, createRoleBinding_eq k _ w, rfl⟩

/-- C2: the role binding submitted by `createRoleBinding` has the role reference
with API group "rbac.authorization.k8s.io", kind "ClusterRole" and name "edit",
for every namespace name. -/
theorem createRoleBinding_roleRef (k : Clientset) (ns : Namespace) (w : World) :
    ∃ (rb : RoleBinding) (w1 : World),
      createRoleBinding (NewNamespaceController (some k))
        (Obj.namespace (some ns)) w = Except.ok w1 ∧
      w1.calls = w.calls ++
        [{ verb := Verb.create, resource := "rolebindings",
           ns := ns.ObjectMeta.Name, body := some rb }] ∧
      rb.RoleRef =
        { APIGroup := "rbac.authorization.k8s.io", Kind := "ClusterRole",
          Name := "edit" } :=
  ⟨_, _, createRoleBinding_eq k ns w, rfl, rfl⟩

/-- C3: the role binding submitted by `createRoleBinding` has exactly one
subject, of kind "Group", named "ad-kubernetes-" followed by the namespace name,
the same string as the metadata name of the binding. -/
theorem createRoleBinding_subjects (k : Clientset) (ns : Namespace) (w : World) :
    ∃ (rb : RoleBinding) (w1 : World) (sub : Subject),
      createRoleBinding (NewNamespaceController (some k))
        (Obj.namespace (some ns)) w = Except.ok w1 ∧
      w1.calls = w.calls ++
        [{ verb := Verb.create, resource := "rolebindings",
           ns := ns.ObjectMeta.Name, body := some rb }] ∧
      rb.Subjects = [sub] ∧ sub.Kind = "Group" ∧
      sub.Name = "ad-kubernetes-" ++ ns.ObjectMeta.Name ∧
      sub.Name = rb.ObjectMeta.Name :=
  ⟨_, _, _, createRoleBinding_eq k ns w, rfl, rfl, rfl, rfl, rfl⟩

/-- C4: an invocation of `createRoleBinding` on a namespace named `n` returns
and adds exactly one request to those sent before, a create of a role binding
addressed to namespace `n`, whatever the clientset answers. -/
theorem createRoleBinding_one_call (k : Clientset) (ns : Namespace) (w : World) :
    ∃ (w1 : World) (call : ApiCall),
      createRoleBinding (NewNamespaceController (some k))
        (Obj.namespace (some ns)) w = Except.ok w1 ∧
      w1.calls = w.calls ++ [call] ∧
      call.verb = Verb.create ∧ call.resource = "rolebindings" ∧
      call.ns = ns.ObjectMeta.Name ∧ call.body.isSome = true :=
  ⟨_, _, createRoleBinding_eq k ns w, rfl, rfl, rfl, rfl, rfl⟩

/-- C5: an invocation of `createRoleBinding` returns normally, sends the one
create request and writes one log entry: when the create answers an error `e`
it is "Failed to create Role Binding: " followed by the message of `e`, and
it starts with "Created AD RoleBinding for Namespace: " if and only if the
create answered no error. -/
theorem createRoleBinding_logs (k : Clientset) (ns : Namespace) (w : World) :
    ∃ (rb : RoleBinding) (w1 : World) (line : String),
      createRoleBinding (NewNamespaceController (some k))
        (Obj.namespace (some ns)) w = Except.ok w1 ∧
      w1.calls = w.calls ++
        [{ verb := Verb.create, resource := "rolebindings",
           ns := ns.ObjectMeta.Name, body := some rb }] ∧
      w1.log = w.log ++ [line] ∧
      (∀ e : GoError, k.Create w.calls ns.ObjectMeta.Name rb = some e →
        line = "Failed to create Role Binding: " ++ e.msg) ∧
      ((∃ t : String, line = "Created AD RoleBinding for Namespace: " ++ t) ↔
        k.Create w.calls ns.ObjectMeta.Name rb = none) := by
  refine ⟨_, _, _, createRoleBinding_eq k ns w, rfl, rfl, ?_, ?_⟩
  · intro e he
    simp only [he]
  · constructor
    · rintro ⟨t, ht⟩
      cases hc : k.Create w.calls ns.ObjectMeta.Name _ with
      | none => rfl
      | some e =>
        simp only [hc] at ht
        exact absurd ht (append_ne_of_head rfl rfl (by decide) _ _)
    · intro hc
      simp only [hc]
      exact ⟨_, rfl⟩

/-- C10: for two namespace objects with different names, the role bindings that
`createRoleBinding` submits differ in their metadata names and every subject of
the one differs in name from every subject of the other. -/
theorem createRoleBinding_injective (k1 k2 : Clientset) (ns1 ns2 : Namespace)
    (w1 w2 : World) (h : ns1.ObjectMeta.Name ≠ ns2.ObjectMeta.Name) :
    ∃ (rb1 rb2 : RoleBinding) (v1 v2 : World),
      createRoleBinding (NewNamespaceController (some k1))
        (Obj.namespace (some ns1)) w1 = Except.ok v1 ∧
      createRoleBinding (NewNamespaceController (some k2))
        (Obj.namespace (some ns2)) w2 = Except.ok v2 ∧
      v1.calls = w1.calls ++
        [{ verb := Verb.create, resource := "rolebindings",
           ns := ns1.ObjectMeta.Name, body := some rb1 }] ∧
      v2.calls = w2.calls ++
        [{ verb := Verb.create, resource := "rolebindings",
           ns := ns2.ObjectMeta.Name, body := some rb2 }] ∧
      rb1.ObjectMeta.Name ≠ rb2.ObjectMeta.Name ∧
      rb1.Subjects ≠ [] ∧ rb2.Subjects ≠ [] ∧
      ∀ s1 ∈ rb1.Subjects, ∀ s2 ∈ rb2.Subjects, s1.Name ≠ s2.Name := by
  refine ⟨_, _, _, _, createRoleBinding_eq k1 ns1 w1, createRoleBinding_eq k2 ns2 w2,
    rfl, rfl, ?_, by simp, by simp, ?_⟩
  · exact fun hn => h (append_left_cancel hn)
  · intro s1 h1 s2 h2
    simp only [List.mem_singleton] at h1 h2
    subst h1 h2
    exact fun hn => h (append_left_cancel hn)

/-- A witness of C10: the namespaces "dev" and "prod". -/
theorem createRoleBinding_injective_witness :
    ∃ (rb1 rb2 : RoleBinding) (v1 v2 : World),
      createRoleBinding (NewNamespaceController (some ⟨fun _ _ _ => none⟩))
        (Obj.namespace (some { ObjectMeta := { Name := "dev" } })) {} = Except.ok v1 ∧
      createRoleBinding (NewNamespaceController (some ⟨fun _ _ _ => none⟩))
        (Obj.namespace (some { ObjectMeta := { Name := "prod" } })) {} = Except.ok v2 ∧
      v1.calls = ({} : World).calls ++
        [{ verb := Verb.create, resource := "rolebindings",
           ns := "dev", body := some rb1 }] ∧
      v2.calls = ({} : World).calls ++
        [{ verb := Verb.create, resource := "rolebindings",
           ns := "prod", body := some rb2 }] ∧
      rb1.ObjectMeta.Name ≠ rb2.ObjectMeta.Name ∧
      rb1.Subjects ≠ [] ∧ rb2.Subjects ≠ [] ∧
      ∀ s1 ∈ rb1.Subjects, ∀ s2 ∈ rb2.Subjects, s1.Name ≠ s2.Name :=
  createRoleBinding_injective ⟨fun _ _ _ => none⟩ ⟨fun _ _ _ => none⟩
    { ObjectMeta := { Name := "dev" } } { ObjectMeta := { Name := "prod" } } {} {}
    (by decide)

/-! ## The event handler -/

/-- C9: the controller built by `NewNamespaceController` has one event handler,
whose add callback is `createRoleBinding` and whose update and delete callbacks
are nil; an add notification runs `createRoleBinding` on the namespace, and an
update or delete notification returns with the requests sent and the log
unchanged. -/
theorem handler_add_only (kclient : Option Clientset) :
    (NewNamespaceController kclient).namespaceInformer.handlers =
      [{ AddFunc := some Callback.createRoleBinding, UpdateFunc := none,
         DeleteFunc := none }] ∧
    (∀ (ns : Namespace) (w : World),
      distribute (NewNamespaceController kclient) (Notification.added ns)
        (NewNamespaceController kclient).namespaceInformer.handlers w =
      createRoleBinding (NewNamespaceController kclient)
        (Obj.namespace (some ns)) w) ∧
    (∀ (oldObj newObj : Obj) (w : World),
      distribute (NewNamespaceController kclient)
        (Notification.updated oldObj newObj)
        (NewNamespaceController kclient).namespaceInformer.handlers w =
      Except.ok w) ∧
    (∀ (obj : Obj) (w : World),
      distribute (NewNamespaceController kclient) (Notification.deleted obj)
        (NewNamespaceController kclient).namespaceInformer.handlers w =
      Except.ok w) := by
  refine ⟨rfl, ?_, ?_, ?_⟩
  · intro ns w
    simp only [NewNamespaceController, List.nil_append, distribute, handle, OnAdd,
      callCallback]
    cases createRoleBinding _ (Obj.namespace (some ns)) w <;> rfl
  · intro oldObj newObj w
    rfl
  · intro obj w
    rfl

/-! ## newClientSet -/

/-- C7: the flag "run-outside-cluster" has the default false, which is its
value when the command line does not name it. With the argument false,
`newClientSet` calls the config builder once, with the empty kubeconfig path,
and its result does not depend on the environment or on `filepath.Join`; with
the argument true it reads HOME, joins it with ".kube" and "config", and calls
the config builder once, with that path. -/
theorem newClientSet_credential_source (lib : Lib) :
    runOutsideClusterFlag.name = "run-outside-cluster" ∧
    runOutsideClusterFlag.value = false ∧
    (initState none).runOutsideCluster = false ∧
    (∃ rest : List LibCall,
      (newClientSet lib false).2 = LibCall.BuildConfigFromFlags "" "" :: rest ∧
      ∀ c ∈ rest, ∃ cfg, c = LibCall.NewForConfig cfg) ∧
    (∀ (getenv : String → String) (join : List String → String),
      newClientSet { lib with Getenv := getenv, Join := join } false =
        newClientSet lib false) ∧
    (∃ rest : List LibCall,
      (newClientSet lib true).2 =
        LibCall.Getenv "HOME" ::
        LibCall.Join [lib.Getenv "HOME", ".kube", "config"] ::
        LibCall.BuildConfigFromFlags ""
          (lib.Join [lib.Getenv "HOME", ".kube", "config"]) :: rest ∧
      ∀ c ∈ rest, ∃ cfg, c = LibCall.NewForConfig cfg) := by
  refine ⟨rfl, rfl, rfl, ?_, ?_, ?_⟩
  · simp only [newClientSet]
    split <;> simp
  · intro getenv join
    rfl
  · simp only [newClientSet]
    split <;> simp

/-! ## main: a failed start -/

/-- When `newClientSet` returns an error, an event keeps the process before the
construction of the controller, and a step of the main goroutine panics. -/
theorem step_of_error (lib : Lib) (e : GoError) (ev : Event) (s : State)
    (h : (newClientSet lib s.runOutsideCluster).1.2 = some e)
    (hc : s.controller = none) (hi : s.informerStarted = false)
    (hw : s.world = {})
    (hpc : s.pc = Pc.newClientSet ∨ s.pc = Pc.panicked (Panic.explicit e.msg)) :
    (step lib ev s).runOutsideCluster = s.runOutsideCluster ∧
    (step lib ev s).controller = none ∧
    (step lib ev s).informerStarted = false ∧
    (step lib ev s).world = {} ∧
    ((step lib ev s).pc = Pc.newClientSet ∨
      (step lib ev s).pc = Pc.panicked (Panic.explicit e.msg)) ∧
    (ev = Event.main ∨ s.pc = Pc.panicked (Panic.explicit e.msg) →
      (step lib ev s).pc = Pc.panicked (Panic.explicit e.msg)) := by
  cases ev with
  | main =>
    rcases hpc with hpc | hpc
    · simp [step, mainStep, hpc, h, hc, hi, hw]
    · simp [step, mainStep, hpc, hc, hi, hw]
  | signal sig =>
    simp only [step, deliver]
    split <;> simp [hc, hi, hw, hpc]
  | informer n =>
    simp [step, informerStep, hc, hi, hw, hpc]

theorem run_of_error (lib : Lib) (e : GoError) (evs : List Event) :
    ∀ s : State, (newClientSet lib s.runOutsideCluster).1.2 = some e →
      s.controller = none → s.informerStarted = false → s.world = {} →
      (s.pc = Pc.newClientSet ∨ s.pc = Pc.panicked (Panic.explicit e.msg)) →
      (run lib evs s).controller = none ∧
      (run lib evs s).informerStarted = false ∧
      (run lib evs s).world = {} ∧
      ((run lib evs s).pc = Pc.newClientSet ∨
        (run lib evs s).pc = Pc.panicked (Panic.explicit e.msg)) ∧
      (Event.main ∈ evs ∨ s.pc = Pc.panicked (Panic.explicit e.msg) →
        (run lib evs s).pc = Pc.panicked (Panic.explicit e.msg)) := by
  induction evs with
  | nil =>
    intro s _ hc hi hw hpc
    simp [run, hc, hi, hw, hpc]
  | cons ev evs ih =>
    intro s h hc hi hw hpc
    obtain ⟨h1, h2, h3, h4, h5, h6⟩ := step_of_error lib e ev s h hc hi hw hpc
    obtain ⟨g1, g2, g3, g4, g5⟩ := ih (step lib ev s) (h1 ▸ h) h2 h3 h4 h5
    refine ⟨g1, g2, g3, g4, ?_⟩
    intro hm
    rcases hm with hm | hm
    · rcases List.mem_cons.mp hm with hm | hm
      · exact g5 (Or.inr (h6 (Or.inl hm.symm)))
      · exact g5 (Or.inl hm)
    · exact g5 (Or.inr (h6 (Or.inr hm)))

/-- When the configuration is built without error, `newClientSet` returns the
pair returned by `kubernetes.NewForConfig` on that configuration. -/
theorem newClientSet_of_built (lib : Lib) (runOutsideCluster : Bool)
    (hb : (lib.BuildConfigFromFlags ""
      (if runOutsideCluster = true
        then lib.Join [lib.Getenv "HOME", ".kube", "config"] else "")).2 = none) :
    (newClientSet lib runOutsideCluster).1 =
      lib.NewForConfig (lib.BuildConfigFromFlags ""
        (if runOutsideCluster = true
          then lib.Join [lib.Getenv "HOME", ".kube", "config"] else "")).1 := by
  cases runOutsideCluster
  · simp only [newClientSet] at hb ⊢
    simp only [Bool.false_eq_true, if_false] at hb ⊢
    simp only [hb]
  · simp only [newClientSet] at hb ⊢
    simp only [if_true] at hb ⊢
    simp only [hb]

/-- C6: when building the client configuration fails, `newClientSet` returns
that error and a nil clientset, and when it succeeds `newClientSet` returns what
the clientset construction returns, its error included; and when `newClientSet`
returns an error `e`, from the configuration building or from the clientset
construction, the first step of `main` panics with the message of `e`, and
whatever happens, no controller is constructed, no informer is started and no
request is sent. -/
theorem newClientSet_error_fatal (lib : Lib) (cmdline : Option Bool) (e : GoError)
    (h : (newClientSet lib (flagValue runOutsideClusterFlag cmdline)).1.2 = some e) :
    (∀ (runOutsideCluster : Bool) (err : GoError),
      (lib.BuildConfigFromFlags ""
        (if runOutsideCluster = true
          then lib.Join [lib.Getenv "HOME", ".kube", "config"] else "")).2
        = some err →
      (newClientSet lib runOutsideCluster).1 = (none, some err)) ∧
    (run lib [Event.main] (initState cmdline)).pc
      = Pc.panicked (Panic.explicit e.msg) ∧
    (∀ evs : List Event,
      (run lib evs (initState cmdline)).controller = none ∧
      (run lib evs (initState cmdline)).informerStarted = false ∧
      (run lib evs (initState cmdline)).world = {} ∧
      ((run lib evs (initState cmdline)).pc = Pc.newClientSet ∨
        (run lib evs (initState cmdline)).pc = Pc.panicked (Panic.explicit e.msg)) ∧
      (Event.main ∈ evs →
        (run lib evs (initState cmdline)).pc = Pc.panicked (Panic.explicit e.msg))) ∧
    (∀ runOutsideCluster : Bool,
      (lib.BuildConfigFromFlags ""
        (if runOutsideCluster = true
          then lib.Join [lib.Getenv "HOME", ".kube", "config"] else "")).2 = none →
      (newClientSet lib runOutsideCluster).1 =
        lib.NewForConfig (lib.BuildConfigFromFlags ""
          (if runOutsideCluster = true
            then lib.Join [lib.Getenv "HOME", ".kube", "config"] else "")).1) ∧
    (∀ (cmd : Option Bool) (err : GoError),
      (lib.BuildConfigFromFlags ""
        (if flagValue runOutsideClusterFlag cmd = true
          then lib.Join [lib.Getenv "HOME", ".kube", "config"] else "")).2 = none →
      (lib.NewForConfig (lib.BuildConfigFromFlags ""
        (if flagValue runOutsideClusterFlag cmd = true
          then lib.Join [lib.Getenv "HOME", ".kube", "config"] else "")).1).2
        = some err →
      (run lib [Event.main] (initState cmd)).pc
        = Pc.panicked (Panic.explicit err.msg) ∧
      ∀ evs : List Event,
        (run lib evs (initState cmd)).controller = none ∧
        (run lib evs (initState cmd)).informerStarted = false ∧
        (run lib evs (initState cmd)).world = {} ∧
        (Event.main ∈ evs →
          (run lib evs (initState cmd)).pc
            = Pc.panicked (Panic.explicit err.msg))) := by
  have key := fun evs => run_of_error lib e evs (initState cmdline) h rfl rfl rfl
    (Or.inl rfl)
  refine ⟨?_, ?_, ?_, ?_, ?_⟩
  · intro runOutsideCluster err hb
    cases runOutsideCluster
    · simp only [newClientSet] at hb ⊢
      simp only [Bool.false_eq_true, if_false] at hb ⊢
      simp only [hb]
    · simp only [newClientSet] at hb ⊢
      simp only [if_true] at hb ⊢
      simp only [hb]
  · exact (key [Event.main]).2.2.2.2 (Or.inl (List.mem_singleton.mpr rfl))
  · intro evs
    obtain ⟨g1, g2, g3, g4, g5⟩ := key evs
    exact ⟨g1, g2, g3, g4, fun hm => g5 (Or.inl hm)⟩
  · exact fun runOutsideCluster hb => newClientSet_of_built lib runOutsideCluster hb
  · intro cmd err hb hn
    have hc : (newClientSet lib (flagValue runOutsideClusterFlag cmd)).1.2
        = some err := by
      rw [newClientSet_of_built lib _ hb]
      exact hn
    have key2 := fun evs => run_of_error lib err evs (initState cmd) hc rfl rfl rfl
      (Or.inl rfl)
    refine ⟨(key2 [Event.main]).2.2.2.2 (Or.inl (List.mem_singleton.mpr rfl)), ?_⟩
    intro evs
    obtain ⟨g1, g2, g3, _, g5⟩ := key2 evs
    exact ⟨g1, g2, g3, fun hm => g5 (Or.inl hm)⟩

/-- A clientset construction that fails on a configuration that was built: the
error is what `newClientSet` returns, `main` panics with its message, and after
the events of a start followed by a notification there is no controller and
no informer. -/
theorem newClientSet_error_fatal_witness :
    (newClientSet
      { Getenv := fun _ => "/root", Join := fun _ => "/root/.kube/config"
        BuildConfigFromFlags := fun _ _ => (some ⟨"https://10.0.0.1"⟩, none)
        NewForConfig := fun _ => (none, some ⟨"bad host"⟩) } true).1
      = (none, some ⟨"bad host"⟩) ∧
    (run
      { Getenv := fun _ => "/root", Join := fun _ => "/root/.kube/config"
        BuildConfigFromFlags := fun _ _ => (some ⟨"https://10.0.0.1"⟩, none)
        NewForConfig := fun _ => (none, some ⟨"bad host"⟩) }
      [Event.main] (initState (some true))).pc
      = Pc.panicked (Panic.explicit "bad host") ∧
    (run
      { Getenv := fun _ => "/root", Join := fun _ => "/root/.kube/config"
        BuildConfigFromFlags := fun _ _ => (some ⟨"https://10.0.0.1"⟩, none)
        NewForConfig := fun _ => (none, some ⟨"bad host"⟩) }
      [Event.main, Event.main, Event.main,
        Event.informer (Notification.added { ObjectMeta := { Name := "dev" } })]
      (initState (some true))).informerStarted = false :=
  have h := newClientSet_error_fatal
    { Getenv := fun _ => "/root", Join := fun _ => "/root/.kube/config"
      BuildConfigFromFlags := fun _ _ => (some ⟨"https://10.0.0.1"⟩, none)
      NewForConfig := fun _ => (none, some ⟨"bad host"⟩) } (some true) ⟨"bad host"⟩ rfl
  ⟨h.2.2.2.1 true rfl, h.2.1, (h.2.2.1 _).2.1⟩

/-- A configuration builder that always fails: `newClientSet` returns its error
and a nil clientset, and `main` panics with its message. -/
theorem newClientSet_build_error_example :
    (newClientSet
      { Getenv := fun _ => "/root", Join := fun _ => "/root/.kube/config"
        BuildConfigFromFlags := fun _ _ => (none, some ⟨"no config"⟩)
        NewForConfig := fun _ => (some ⟨fun _ _ _ => none⟩, none) } false).1.2
      = some ⟨"no config"⟩ ∧
    (run
      { Getenv := fun _ => "/root", Join := fun _ => "/root/.kube/config"
        BuildConfigFromFlags := fun _ _ => (none, some ⟨"no config"⟩)
        NewForConfig := fun _ => (some ⟨fun _ _ _ => none⟩, none) }
      [Event.main] (initState none)).pc
      = Pc.panicked (Panic.explicit "no config") :=
  ⟨rfl, rfl⟩

/-! ## main: shutdown -/

theorem append_ne_shutdown {a : String} {x : Char} {p : List Char}
    (ha : a.data = x :: p) (hx : x ≠ 'S') (s : String) :
    a ++ s ≠ "Shutting down..." := by
  intro h
  have h2 := congrArg String.data h
  simp only [String.data_append, ha, List.cons_append] at h2
  exact hx (List.cons.inj h2).1

theorem createRoleBinding_keeps_log (c : NamespaceController) (obj : Obj)
    (w v : World) (h : createRoleBinding c obj w = Except.ok v)
    (hw : "Shutting down..." ∉ w.log) : "Shutting down..." ∉ v.log := by
  unfold createRoleBinding at h
  split at h
  · cases h
  · cases h
  · simp only [sprintf_adKubernetes, sprintf_failed, sprintf_created] at h
    split at h
    · cases h
    · split at h
      · cases h
        simp only [List.mem_append, List.mem_singleton, not_or]
        exact ⟨hw, fun hn => append_ne_shutdown rfl (by decide) _ hn.symm⟩
      · cases h
        simp only [List.mem_append, List.mem_singleton, not_or]
        exact ⟨hw, fun hn => append_ne_shutdown rfl (by decide) _ hn.symm⟩

theorem handle_keeps_log (h : ResourceEventHandlerFuncs) (c : NamespaceController)
    (n : Notification) (w v : World) (hv : handle h c n w = Except.ok v)
    (hw : "Shutting down..." ∉ w.log) : "Shutting down..." ∉ v.log := by
  cases n with
  | added ns =>
    simp only [handle, OnAdd] at hv
    split at hv
    · rename_i f _
      cases f
      exact createRoleBinding_keeps_log c _ w v (by simpa only [callCallback] using hv) hw
    · cases hv
      exact hw
  | updated oldObj newObj =>
    simp only [handle, OnUpdate] at hv
    split at hv
    · rename_i f _
      cases f
    · cases hv
      exact hw
  | deleted obj =>
    simp only [handle, OnDelete] at hv
    split at hv
    · rename_i f _
      cases f
      exact createRoleBinding_keeps_log c _ w v (by simpa only [callCallback] using hv) hw
    · cases hv
      exact hw

theorem distribute_keeps_log (c : NamespaceController) (n : Notification)
    (hs : List ResourceEventHandlerFuncs) :
    ∀ w v : World, distribute c n hs w = Except.ok v →
      "Shutting down..." ∉ w.log → "Shutting down..." ∉ v.log := by
  induction hs with
  | nil =>
    intro w v hv hw
    simp only [distribute] at hv
    cases hv
    exact hw
  | cons h hs ih =>
    intro w v hv hw
    simp only [distribute] at hv
    split at hv
    · rename_i w1 h1
      exact ih w1 v hv (handle_keeps_log h c n w w1 h1 hw)
    · cases hv

theorem step_never_shutdown (lib : Lib) (ev : Event) (s : State)
    (h1 : s.stopClosed = false)
    (h2 : s.pc ≠ Pc.waitSigs ∧ s.pc ≠ Pc.logShutdown ∧ s.pc ≠ Pc.returned)
    (h3 : "Shutting down..." ∉ s.world.log) :
    (step lib ev s).stopClosed = false ∧
    ((step lib ev s).pc ≠ Pc.waitSigs ∧ (step lib ev s).pc ≠ Pc.logShutdown ∧
      (step lib ev s).pc ≠ Pc.returned) ∧
    "Shutting down..." ∉ (step lib ev s).world.log := by
  obtain ⟨h2a, h2b, h2c⟩ := h2
  cases ev with
  | main =>
    simp only [step, mainStep]
    split
    · split <;> simp [h1, h3]
    · simp [h1, h3]
    · simp [h1, h3]
    · rename_i hpc
      simp [h1, h3, hpc]
    · rename_i hpc
      exact absurd hpc h2a
    · rename_i hpc
      exact absurd hpc h2b
    · exact ⟨h1, ⟨h2a, h2b, h2c⟩, h3⟩
    · exact ⟨h1, ⟨h2a, h2b, h2c⟩, h3⟩
  | signal sig =>
    simp only [step, deliver]
    split
    · exact ⟨h1, ⟨h2a, h2b, h2c⟩, h3⟩
    · exact ⟨h1, ⟨h2a, h2b, h2c⟩, h3⟩
  | informer n =>
    simp only [step, informerStep]
    split
    · split
      · exact ⟨h1, ⟨h2a, h2b, h2c⟩, h3⟩
      · split
        · rename_i w hw
          exact ⟨h1, ⟨h2a, h2b, h2c⟩, distribute_keeps_log _ n _ _ w hw h3⟩
        · simp [h1, h3]
    · exact ⟨h1, ⟨h2a, h2b, h2c⟩, h3⟩

theorem run_never_shutdown (lib : Lib) (evs : List Event) :
    ∀ s : State, s.stopClosed = false →
      (s.pc ≠ Pc.waitSigs ∧ s.pc ≠ Pc.logShutdown ∧ s.pc ≠ Pc.returned) →
      "Shutting down..." ∉ s.world.log →
      (run lib evs s).stopClosed = false ∧
      ((run lib evs s).pc ≠ Pc.waitSigs ∧ (run lib evs s).pc ≠ Pc.logShutdown ∧
        (run lib evs s).pc ≠ Pc.returned) ∧
      "Shutting down..." ∉ (run lib evs s).world.log := by
  induction evs with
  | nil =>
    intro s h1 h2 h3
    exact ⟨h1, h2, h3⟩
  | cons ev evs ih =>
    intro s h1 h2 h3
    obtain ⟨g1, g2, g3⟩ := step_never_shutdown lib ev s h1 h2 h3
    exact ih (step lib ev s) g1 g2 g3

theorem distribute_ok (k : Clientset) (n : Notification) (w : World) :
    ∃ v : World,
      distribute (NewNamespaceController (some k)) n
        (NewNamespaceController (some k)).namespaceInformer.handlers w
        = Except.ok v := by
  cases n with
  | added ns =>
    have h := createRoleBinding_eq k ns w
    simp only [NewNamespaceController, List.nil_append, distribute, handle, OnAdd,
      callCallback] at h ⊢
    rw [h]
    exact ⟨_, rfl⟩
  | updated oldObj newObj => exact ⟨w, rfl⟩
  | deleted obj => exact ⟨w, rfl⟩

/-- With the main goroutine at the receive from `stopCh`, a signal in the
buffer of `sigs` and the informer running, every event leaves all of that as
it is. -/
theorem step_blocked (lib : Lib) (k : Clientset) (sig : Signal) (ev : Event)
    (s : State) (h1 : s.pc = Pc.runWait) (h2 : s.stopClosed = false)
    (h3 : s.sigs = [sig]) (h4 : s.informerStarted = true)
    (h5 : s.controller = some (NewNamespaceController (some k))) :
    (step lib ev s).pc = Pc.runWait ∧ (step lib ev s).stopClosed = false ∧
    (step lib ev s).sigs = [sig] ∧ (step lib ev s).informerStarted = true ∧
    (step lib ev s).controller = some (NewNamespaceController (some k)) := by
  cases ev with
  | main =>
    simp [step, mainStep, h1, h2, h3, h4, h5]
  | signal sig2 =>
    simp [step, deliver, h1, h2, h3, h4, h5]
  | informer n =>
    obtain ⟨v, hv⟩ := distribute_ok k n s.world
    simp [step, informerStep, State.alive, h1, h2, h3, h4, h5, hv]

theorem run_blocked (lib : Lib) (k : Clientset) (sig : Signal) (evs : List Event) :
    ∀ s : State, s.pc = Pc.runWait → s.stopClosed = false → s.sigs = [sig] →
      s.informerStarted = true →
      s.controller = some (NewNamespaceController (some k)) →
      (run lib evs s).pc = Pc.runWait ∧ (run lib evs s).stopClosed = false ∧
      (run lib evs s).sigs = [sig] ∧ (run lib evs s).informerStarted = true := by
  induction evs with
  | nil =>
    intro s h1 h2 h3 h4 _
    exact ⟨h1, h2, h3, h4⟩
  | cons ev evs ih =>
    intro s h1 h2 h3 h4 h5
    obtain ⟨g1, g2, g3, g4, g5⟩ := step_blocked lib k sig ev s h1 h2 h3 h4 h5
    exact ih (step lib ev s) g1 g2 g3 g4 g5

theorem run_append (lib : Lib) (es fs : List Event) :
    ∀ s : State, run lib (es ++ fs) s = run lib fs (run lib es s) := by
  induction es with
  | nil => intro s; rfl
  | cons e es ih => intro s; exact ih (step lib e s)

/-- The state after a successful start and the delivery of one signal. -/
theorem started_state (lib : Lib) (cmdline : Option Bool) (k : Clientset)
    (h : (newClientSet lib (flagValue runOutsideClusterFlag cmdline)).1
      = (some k, none)) (sig : Signal) :
    (run lib [Event.main, Event.main, Event.main, Event.signal sig]
      (initState cmdline)).pc = Pc.runWait ∧
    (run lib [Event.main, Event.main, Event.main, Event.signal sig]
      (initState cmdline)).stopClosed = false ∧
    (run lib [Event.main, Event.main, Event.main, Event.signal sig]
      (initState cmdline)).sigs = [sig] ∧
    (run lib [Event.main, Event.main, Event.main, Event.signal sig]
      (initState cmdline)).informerStarted = true ∧
    (run lib [Event.main, Event.main, Event.main, Event.signal sig]
      (initState cmdline)).controller = some (NewNamespaceController (some k)) := by
  have h1 : (newClientSet lib (flagValue runOutsideClusterFlag cmdline)).1.2 = none := by
    rw [h]
  have h2 : (newClientSet lib (flagValue runOutsideClusterFlag cmdline)).1.1 = some k := by
    rw [h]
  simp [run, step, mainStep, deliver, State.alive, initState, h1, h2]

/-- C8, as the code behaves: whatever happens, the channel `stop` is never
closed, the main goroutine never reaches the receive from `sigs` and never logs
"Shutting down..."; after a successful start it stands at the receive from
`stopCh` inside `Run` with the informer running, and once a signal is delivered
it stays there for ever, the signal unread in the buffer of `sigs`. -/
theorem main_never_shuts_down (lib : Lib) (cmdline : Option Bool) (k : Clientset)
    (h : (newClientSet lib (flagValue runOutsideClusterFlag cmdline)).1
      = (some k, none)) (sig : Signal) (evs : List Event) :
    ((run lib evs (initState cmdline)).stopClosed = false ∧
      (run lib evs (initState cmdline)).pc ≠ Pc.waitSigs ∧
      (run lib evs (initState cmdline)).pc ≠ Pc.logShutdown ∧
      (run lib evs (initState cmdline)).pc ≠ Pc.returned ∧
      "Shutting down..." ∉ (run lib evs (initState cmdline)).world.log) ∧
    ((run lib ([Event.main, Event.main, Event.main, Event.signal sig] ++ evs)
        (initState cmdline)).pc = Pc.runWait ∧
      (run lib ([Event.main, Event.main, Event.main, Event.signal sig] ++ evs)
        (initState cmdline)).sigs = [sig] ∧
      (run lib ([Event.main, Event.main, Event.main, Event.signal sig] ++ evs)
        (initState cmdline)).stopClosed = false ∧
      (run lib ([Event.main, Event.main, Event.main, Event.signal sig] ++ evs)
        (initState cmdline)).informerStarted = true ∧
      "Shutting down..." ∉
        (run lib ([Event.main, Event.main, Event.main, Event.signal sig] ++ evs)
          (initState cmdline)).world.log) := by
  have gen := fun es => run_never_shutdown lib es (initState cmdline) rfl
    ⟨by simp [initState], by simp [initState], by simp [initState]⟩
    (by simp [initState])
  obtain ⟨s1, s2, s3, s4, s5⟩ := started_state lib cmdline k h sig
  have blk := run_blocked lib k sig evs _ s1 s2 s3 s4 s5
  rw [run_append]
  exact ⟨⟨(gen evs).1, (gen evs).2.1.1, (gen evs).2.1.2.1, (gen evs).2.1.2.2,
      (gen evs).2.2⟩,
    blk.1, blk.2.2.1, blk.2.1, blk.2.2.2,
    by rw [← run_append]; exact (gen _).2.2⟩

/-- A start that succeeds, then SIGTERM, then three more steps of `main`. -/
theorem main_never_shuts_down_witness :
    (run
      { Getenv := fun _ => "/root", Join := fun _ => "/root/.kube/config"
        BuildConfigFromFlags := fun _ _ => (some ⟨"https://10.0.0.1"⟩, none)
        NewForConfig := fun _ => (some ⟨fun _ _ _ => none⟩, none) }
      ([Event.main, Event.main, Event.main, Event.signal Signal.SIGTERM] ++
        [Event.main, Event.main, Event.main]) (initState none)).pc = Pc.runWait ∧
    (run
      { Getenv := fun _ => "/root", Join := fun _ => "/root/.kube/config"
        BuildConfigFromFlags := fun _ _ => (some ⟨"https://10.0.0.1"⟩, none)
        NewForConfig := fun _ => (some ⟨fun _ _ _ => none⟩, none) }
      ([Event.main, Event.main, Event.main, Event.signal Signal.SIGTERM] ++
        [Event.main, Event.main, Event.main]) (initState none)).sigs
      = [Signal.SIGTERM] :=
  have h := main_never_shuts_down
    { Getenv := fun _ => "/root", Join := fun _ => "/root/.kube/config"
      BuildConfigFromFlags := fun _ _ => (some ⟨"https://10.0.0.1"⟩, none)
      NewForConfig := fun _ => (some ⟨fun _ _ _ => none⟩, none) }
    none ⟨fun _ _ _ => none⟩ rfl Signal.SIGTERM [Event.main, Event.main, Event.main]
  ⟨h.2.1, h.2.2.1⟩

end OperatorDemo
